import Mathlib

/-!
Verification of the mp-units quantity-spec / unit / reference core.

This file gives a shallow embedding of the two source files of the
excerpt, `src/core/include/mp_units/reference.h` and
`src/core/include/mp_units/bits/quantity_spec_concepts.h`, and proves the
stated properties of the reference binder, the associated-quantity
resolver and the quantity-spec concept layer.

The quantity-spec algebra itself (multiplication, division, the
`dimensionless` identity) lives in `quantity_spec.h`, which is not part
of the excerpt; it is modelled from the specification (spec section 4.2:
normalized products of powers of named atoms, merged exponents, canonical
order, zero exponents dropped, the empty product being `dimensionless`).
The reference-binder layer is embedded generically over the underlying
spec/unit sub-algebras, exactly as the source composes them pointwise.
-/

namespace MPUnits

/-! ## Quantity-spec values

Modelled from the spec: `quantity_spec.h` (not in the excerpt) defines
the quantity-spec values and their `*` / `/` operators.  Spec section 4.2
describes their normal form: a product of powers of named atoms kept in
one canonical total order, with equal factors merged by summing
exponents, zero exponents dropped, and the empty product being the
distinguished `dimensionless` identity.  Atoms are identified by an
interned id (spec section 3: identity by name/tag). -/
structure QSpec where
  factors : List (Nat × Int)
deriving DecidableEq

namespace QSpec

/-- Modelled from the spec: merge two canonically sorted factor lists,
summing exponents of equal atoms and dropping factors whose summed
exponent is zero (spec section 4.2, normalization steps 2-4). -/
def mergeFactors : List (Nat × Int) → List (Nat × Int) → List (Nat × Int)
  | [], ys => ys
  | x :: xs, [] => x :: xs
  | (i, a) :: xs, (j, b) :: ys =>
    if i < j then (i, a) :: mergeFactors xs ((j, b) :: ys)
    else if j < i then (j, b) :: mergeFactors ((i, a) :: xs) ys
    else if a + b = 0 then mergeFactors xs ys
    else (i, a + b) :: mergeFactors xs ys
termination_by xs ys => xs.length + ys.length

/-- Modelled from the spec: the distinguished dimensionless identity, the
empty product (spec section 3). -/
def dimensionless : QSpec := ⟨[]⟩

/-- Modelled from the spec: quantity-spec multiplication merges the
factor multisets of the operands (spec section 4.2). -/
def mul (q1 q2 : QSpec) : QSpec := ⟨mergeFactors q1.factors q2.factors⟩

/-- Modelled from the spec: the multiplicative inverse negates every
exponent. -/
def inv (q : QSpec) : QSpec := ⟨q.factors.map (fun p => (p.1, -p.2))⟩

/-- Modelled from the spec: quantity-spec division multiplies by the
inverse (spec section 4.2). -/
def div (q1 q2 : QSpec) : QSpec := mul q1 q2.inv

/-- Modelled from the spec: raising a quantity spec to an integer power
scales every exponent; a zero power collapses to `dimensionless`. -/
def qpow (q : QSpec) (n : Int) : QSpec :=
  if n = 0 then dimensionless else ⟨q.factors.map (fun p => (p.1, p.2 * n))⟩

/-- A named atomic quantity spec (spec section 3: base entities are
atomic leaves identified by name/tag). -/
def atom (i : Nat) : QSpec := ⟨[(i, 1)]⟩

end QSpec

/-! ## Unit expressions and the associated-quantity resolver

Embeds `detail::get_associated_quantity` from `reference.h` (lines
34-58).  A unit type either declares a `reference_unit` member (scaled
units), declares `_num_` / `_den_` type lists (a ratio of two unit
expressions), or declares a `base_quantity` member (base units); unit
factors may additionally be `power<U, Vs...>` wrappers, which have their
own overload. -/
inductive UnitExpr where
  /-- A base unit declaring `U::base_quantity`. -/
  | base (id : Nat) (base_quantity : QSpec) : UnitExpr
  /-- A scaled/named unit declaring `U::reference_unit`. -/
  | scaled (id : Nat) (reference_unit : UnitExpr) : UnitExpr
  /-- A ratio unit declaring the `_num_` and `_den_` type lists. -/
  | ratio (num den : List UnitExpr) : UnitExpr
  /-- A `power<U, Vs...>` factor: a base unit expression together with
  the exponent parameter pack `Vs...`. -/
  | pow (u : UnitExpr) (vs : List Int) : UnitExpr

mutual

/-- `detail::get_associated_quantity` (reference.h lines 34-58): the
`power<U, Vs...>` overload delegates to the base unit `U` (lines 37-41),
a unit with a `reference_unit` member delegates to it, a unit with
`_num_` / `_den_` type lists divides the recursively resolved
associated quantities of the two sides, and a unit with a
`base_quantity` member returns it (lines 49-58). -/
def get_associated_quantity : UnitExpr → QSpec
  | .pow u _ => get_associated_quantity u
  | .base _ bq => bq
  | .scaled _ ru => get_associated_quantity ru
  | .ratio num den =>
    QSpec.div (get_associated_quantity_of_list QSpec.dimensionless num)
      (get_associated_quantity_of_list QSpec.dimensionless den)

/-- The `type_list<Us...>` overload of `detail::get_associated_quantity`
(reference.h lines 43-47): the left fold
`(dimensionless * ... * get_associated_quantity(Us{}))`. -/
def get_associated_quantity_of_list (acc : QSpec) : List UnitExpr → QSpec
  | [] => acc
  | u :: rest =>
    get_associated_quantity_of_list (QSpec.mul acc (get_associated_quantity u)) rest

end

/-- `get_quantity_spec(AssociatedUnit auto u)` (reference.h lines 62-65):
returns `detail::get_associated_quantity(u)`. -/
def get_quantity_spec_of_unit (u : UnitExpr) : QSpec := get_associated_quantity u

/-! ## The reference binder, generically over the sub-algebras

`reference.h` composes the quantity-spec algebra and the unit algebra
pointwise.  Those sub-algebras (`==`, `*`, `/`, `interconvertible`,
`common_quantity_spec`, `common_unit` on specs and units) are defined in
headers outside the excerpt, and the reference layer uses them only
through their ambient overload set; the embedding therefore takes them
as an explicit bundle of operations over abstract spec and unit carrier
types `S` and `Uu`, so every theorem about the reference layer holds for
every underlying sub-algebra. -/
structure SubAlg (S Uu : Type) where
  /-- `operator==` on quantity specs. -/
  qeq : S → S → Bool
  /-- `operator*` on quantity specs. -/
  qmul : S → S → S
  /-- `operator/` on quantity specs. -/
  qdiv : S → S → S
  /-- `interconvertible` on quantity specs. -/
  qint : S → S → Bool
  /-- `operator==` on units. -/
  ueq : Uu → Uu → Bool
  /-- `operator*` on units. -/
  umul : Uu → Uu → Uu
  /-- `operator/` on units. -/
  udiv : Uu → Uu → Uu
  /-- `interconvertible` on units (also between a unit and an
  associated unit). -/
  uint : Uu → Uu → Bool
  /-- `get_quantity_spec` on an associated unit, i.e.
  `detail::get_associated_quantity` (reference.h lines 62-65). -/
  assocSpec : Uu → S
  /-- `common_quantity_spec(q1, q2, rest...)`: the variadic resolver on
  quantity specs; `none` models the case in which no overload result
  exists (the `requires` clause of `common_reference` fails). -/
  commonQuantitySpec : S → S → List S → Option S
  /-- `common_unit(u1, u2, rest...)`: the variadic resolver on units;
  `none` models the case in which no overload result exists. -/
  commonUnit : Uu → Uu → List Uu → Option Uu

/-- `reference<Q, U>` (reference.h lines 104-112): the pair of a
quantity spec and a unit. -/
structure Ref (S Uu : Type) where
  Q : S
  U : Uu
deriving DecidableEq

variable {S Uu V : Type}

/-- `operator==(reference<Q1,U1>, reference<Q2,U2>)` (reference.h lines
113-117): `Q1 == Q2 && U1 == U2`. -/
def ref_eq (A : SubAlg S Uu) (r1 r2 : Ref S Uu) : Bool :=
  A.qeq r1.Q r2.Q && A.ueq r1.U r2.U

/-- `operator==(reference<Q1,U1>, U2 u2)` (reference.h lines 119-123):
`Q1 == get_quantity_spec(u2) && U1 == u2`. -/
def ref_eq_unit (A : SubAlg S Uu) (r1 : Ref S Uu) (u2 : Uu) : Bool :=
  A.qeq r1.Q (A.assocSpec u2) && A.ueq r1.U u2

/-- `operator*(reference<Q1,U1>, reference<Q2,U2>)` (reference.h lines
125-129): `reference<Q1 * Q2, U1 * U2>`. -/
def ref_mul (A : SubAlg S Uu) (r1 r2 : Ref S Uu) : Ref S Uu :=
  ⟨A.qmul r1.Q r2.Q, A.umul r1.U r2.U⟩

/-- `operator*(reference<Q1,U1>, U2)` (reference.h lines 131-135):
`reference<Q1 * get_quantity_spec(U2{}), U1 * U2{}>`. -/
def ref_mul_unit (A : SubAlg S Uu) (r1 : Ref S Uu) (u2 : Uu) : Ref S Uu :=
  ⟨A.qmul r1.Q (A.assocSpec u2), A.umul r1.U u2⟩

/-- `operator*(U1, reference<Q2,U2>)` (reference.h lines 137-141):
`reference<get_quantity_spec(U1{}) * Q2, U1{} * U2>`. -/
def unit_mul_ref (A : SubAlg S Uu) (u1 : Uu) (r2 : Ref S Uu) : Ref S Uu :=
  ⟨A.qmul (A.assocSpec u1) r2.Q, A.umul u1 r2.U⟩

/-- `operator/(reference<Q1,U1>, reference<Q2,U2>)` (reference.h lines
143-147): `reference<Q1 / Q2, U1 / U2>`. -/
def ref_div (A : SubAlg S Uu) (r1 r2 : Ref S Uu) : Ref S Uu :=
  ⟨A.qdiv r1.Q r2.Q, A.udiv r1.U r2.U⟩

/-- `operator/(reference<Q1,U1>, U2)` (reference.h lines 149-153):
`reference<Q1 / get_quantity_spec(U2{}), U1 / U2{}>`. -/
def ref_div_unit (A : SubAlg S Uu) (r1 : Ref S Uu) (u2 : Uu) : Ref S Uu :=
  ⟨A.qdiv r1.Q (A.assocSpec u2), A.udiv r1.U u2⟩

/-- `operator/(U1, reference<Q2,U2>)` (reference.h lines 155-159):
`reference<get_quantity_spec(U1{}) / Q2, U1{} / U2>`. -/
def unit_div_ref (A : SubAlg S Uu) (u1 : Uu) (r2 : Ref S Uu) : Ref S Uu :=
  ⟨A.qdiv (A.assocSpec u1) r2.Q, A.udiv u1 r2.U⟩

/-- `interconvertible(reference<Q1,U1>, reference<Q2,U2>)` (reference.h
lines 169-173): `interconvertible(Q1, Q2) && interconvertible(U1, U2)`. -/
def ref_interconvertible (A : SubAlg S Uu) (r1 r2 : Ref S Uu) : Bool :=
  A.qint r1.Q r2.Q && A.uint r1.U r2.U

/-- `interconvertible(reference<Q1,U1>, U2 u2)` (reference.h lines
175-179): `interconvertible(Q1, get_quantity_spec(u2)) &&
interconvertible(U1, u2)`. -/
def ref_interconvertible_unit (A : SubAlg S Uu) (r1 : Ref S Uu) (u2 : Uu) : Bool :=
  A.qint r1.Q (A.assocSpec u2) && A.uint r1.U u2

/-- `interconvertible(U1 u1, reference<Q2,U2> r2)` (reference.h lines
181-185): delegates to `interconvertible(r2, u1)`. -/
def unit_interconvertible_ref (A : SubAlg S Uu) (u1 : Uu) (r2 : Ref S Uu) : Bool :=
  ref_interconvertible_unit A r2 u1

/-- `common_reference(Reference auto r1, r2, rest...)` (reference.h
lines 198-215): constrained by a `requires` clause demanding that both
`common_quantity_spec` over the quantity-spec sides and `common_unit`
over the unit sides have a result; when both do, it returns the
`reference` pairing them, and otherwise no overload exists, modelled by
`none`. -/
def common_reference (A : SubAlg S Uu) (r1 r2 : Ref S Uu) (rest : List (Ref S Uu)) :
    Option (Ref S Uu) :=
  match A.commonQuantitySpec r1.Q r2.Q (rest.map Ref.Q),
      A.commonUnit r1.U r2.U (rest.map Ref.U) with
  | some q, some u => some ⟨q, u⟩
  | _, _ => none

/-- `quantity<R, Rep>` (declared reference.h lines 84-85): a
representation value bound to a reference. -/
structure Qty (S Uu V : Type) where
  ref : Ref S Uu
  value : V
deriving DecidableEq

/-- The possible left-hand sides of `lhs * reference`: either a plain
representation value satisfying `RepresentationOf` (the carrier type `V`
stands for a valid representation type), or a value that is already a
`quantity`. -/
inductive RepOrQty (S Uu V : Type) where
  | rep (v : V) : RepOrQty S Uu V
  | qty (q : Qty S Uu V) : RepOrQty S Uu V

/-- The `lhs * reference` overload set of reference.h lines 161-167: a
plain representation value `lhs` yields `quantity<R{}, Rep>(lhs)`, while
a left-hand side that is already a `Quantity` hits the deleted overload
`void operator*(Quantity auto, Reference auto) = delete` (whose source
comment directs the caller to write `q * (1 * r)` instead); the deleted
overload is modelled by `none`. -/
def rep_times_ref (lhs : RepOrQty S Uu V) (r : Ref S Uu) : Option (Qty S Uu V) :=
  match lhs with
  | .rep v => some ⟨r, v⟩
  | .qty _ => none

/-! ## The quantity-spec concept layer

Embeds `bits/quantity_spec_concepts.h`.  The C++ types that the concepts
classify are modelled as a closed grammar: direct specializations of the
`quantity_spec` class template, user-named types derived from such a
specialization, the distinguished dimensionless type, `power<F, Vs...>`
wrappers, `per<Ts...>` groupings, `derived_quantity_spec<Expr...>`
specializations, and unrelated types.  Two facts come from headers
outside the excerpt and are modelled from the spec: the dimensionless
type is the one for which the `is_dimensionless` variable template is
specialized to `true`, and `derived_quantity_spec` is its own family
(a Derived spec is an expression over Named specs, not itself derived
from `quantity_spec`; spec section 4.2 classifies specs into the two
disjoint families Named and Derived). -/
inductive CType where
  /-- A direct specialization `quantity_spec<Args...>`. -/
  | qspec_inst (args : List Nat) : CType
  /-- A user-named type strictly derived from a `quantity_spec`
  specialization. -/
  | named_spec (id : Nat) : CType
  /-- Modelled from the spec: the distinguished dimensionless identity
  type (`is_dimensionless` is specialized for it in `quantity_spec.h`,
  outside the excerpt). -/
  | dimensionless_t : CType
  /-- A `power<F, Vs...>` specialization with factor `F`. -/
  | power_t (factor : CType) (vs : List Int) : CType
  /-- A `per<Ts...>` specialization. -/
  | per_t (elems : List CType) : CType
  /-- A `derived_quantity_spec<Expr...>` specialization. -/
  | derived_spec (exprs : List CType) : CType
  /-- Any other type. -/
  | other (id : Nat) : CType

namespace CType

/-- Viability of `detail::to_base_specialization_of_quantity_spec(t)`
(quantity_spec_concepts.h lines 40-45): a `T*` converts to a
`quantity_spec<...>*` exactly when `T` is a `quantity_spec`
specialization or publicly derives from one. -/
def to_base_specialization_of_quantity_spec : CType → Bool
  | .qspec_inst _ => true
  | .named_spec _ => true
  | _ => false

/-- `detail::is_specialization_of_quantity_spec` (lines 57-66): `true`
exactly for direct `quantity_spec<...>` specializations. -/
def is_specialization_of_quantity_spec : CType → Bool
  | .qspec_inst _ => true
  | _ => false

/-- `detail::NamedQuantitySpec` (lines 72-74): derives from a
`quantity_spec` specialization and is not itself one. -/
def NamedQuantitySpec (T : CType) : Bool :=
  to_base_specialization_of_quantity_spec T && !is_specialization_of_quantity_spec T

/-- `detail::is_dimensionless` (lines 92-93, with its specialization in
`quantity_spec.h` outside the excerpt): `true` exactly for the
dimensionless type. -/
def is_dimensionless : CType → Bool
  | .dimensionless_t => true
  | _ => false

/-- `is_specialization_of_power`: `true` exactly for `power<F, Vs...>`
specializations. -/
def is_specialization_of_power : CType → Bool
  | .power_t _ _ => true
  | _ => false

/-- `detail::is_power_of_quantity_spec` (lines 95-99): a `power`
specialization whose factor is a named quantity spec or dimensionless. -/
def is_power_of_quantity_spec : CType → Bool
  | .power_t f _ => NamedQuantitySpec f || is_dimensionless f
  | _ => false

/-- `detail::is_per_of_quantity_specs` (lines 101-106): `true` for
`per<Ts...>` when every `Ts` is a named quantity spec, dimensionless, or
a power of a quantity spec; `false` for every other type. -/
def is_per_of_quantity_specs : CType → Bool
  | .per_t ts =>
    ts.all (fun t => NamedQuantitySpec t || is_dimensionless t || is_power_of_quantity_spec t)
  | _ => false

/-- `DerivedQuantitySpecExpr` (lines 108-110): the constraint on each
factor of `derived_quantity_spec`. -/
def DerivedQuantitySpecExpr (T : CType) : Bool :=
  NamedQuantitySpec T || is_dimensionless T || is_power_of_quantity_spec T ||
    is_per_of_quantity_specs T

/-- `detail::is_derived_from_specialization_of_derived_quantity_spec`
(lines 119-123): `true` exactly for `derived_quantity_spec<...>`
specializations. -/
def is_specialization_of_derived_quantity_spec : CType → Bool
  | .derived_spec _ => true
  | _ => false

/-- `detail::DerivedQuantitySpec` (lines 130-131). -/
def DerivedQuantitySpec (T : CType) : Bool :=
  is_specialization_of_derived_quantity_spec T

/-- `QuantitySpec` (lines 134-135): a named or a derived quantity
spec. -/
def QuantitySpec (T : CType) : Bool :=
  NamedQuantitySpec T || DerivedQuantitySpec T

/-- Instantiating `derived_quantity_spec<Expr...>` (lines 113-114):
each template argument must satisfy `DerivedQuantitySpecExpr`, so the
instantiation exists exactly when every factor does. -/
def mk_derived_quantity_spec (fs : List CType) : Option CType :=
  if fs.all DerivedQuantitySpecExpr then some (.derived_spec fs) else none

end CType

/-- The claim's shape of a valid `per` element, stated independently of
the source predicates for comparison: a Named quantity spec, the
Dimensionless identity, or a Power whose base is one of those. -/
def valid_elem_shape : CType → Bool
  | .power_t f _ => CType.NamedQuantitySpec f || CType.is_dimensionless f
  | t => CType.NamedQuantitySpec t || CType.is_dimensionless t

/-- The claim's shape of a valid `derived_quantity_spec` factor, stated
independently of the source predicates for comparison: a Named quantity
spec, the Dimensionless identity, a Power whose base is one of those, or
a Per whose elements are all of those. -/
def valid_factor_shape : CType → Bool
  | .per_t ts => ts.all valid_elem_shape
  | t => valid_elem_shape t

/-- A small concrete instantiation of the sub-algebra bundle, used to
exhibit the reference-layer theorems at concrete inputs: specs and units
are interned ids, `interconvertible` is identity, and the common-entity
resolvers succeed exactly on all-equal inputs. -/
def sampleAlg : SubAlg Nat Nat where
  qeq a b := a == b
  qmul a b := a * b
  qdiv a b := a / b
  qint a b := a == b
  ueq a b := a == b
  umul a b := a * b
  udiv a b := a / b
  uint a b := a == b
  assocSpec a := a
  commonQuantitySpec a b rest := if b == a && rest.all (· == a) then some a else none
  commonUnit a b rest := if b == a && rest.all (· == a) then some a else none

/-! ## Theorems -/

/-- C1: `common_reference` on two or more References is defined exactly
when both `common_quantity_spec` over the quantity-spec sides and
`common_unit` over the unit sides have a result; when defined it returns
the Reference pairing exactly that common quantity spec with that common
unit, and when either resolver has no result the whole operation has no
result. -/
theorem common_reference_spec {S Uu : Type} (A : SubAlg S Uu) (r1 r2 : Ref S Uu)
    (rest : List (Ref S Uu)) :
    ((common_reference A r1 r2 rest).isSome ↔
      (A.commonQuantitySpec r1.Q r2.Q (rest.map Ref.Q)).isSome ∧
        (A.commonUnit r1.U r2.U (rest.map Ref.U)).isSome) ∧
    (∀ q u, A.commonQuantitySpec r1.Q r2.Q (rest.map Ref.Q) = some q →
      A.commonUnit r1.U r2.U (rest.map Ref.U) = some u →
      common_reference A r1 r2 rest = some ⟨q, u⟩) ∧
    ((A.commonQuantitySpec r1.Q r2.Q (rest.map Ref.Q) = none ∨
      A.commonUnit r1.U r2.U (rest.map Ref.U) = none) →
      common_reference A r1 r2 rest = none) := by
  unfold common_reference
  rcases A.commonQuantitySpec r1.Q r2.Q (rest.map Ref.Q) with _ | q <;>
    rcases A.commonUnit r1.U r2.U (rest.map Ref.U) with _ | u <;> simp

/-- Witness for C1: at the sample algebra, two copies of the reference
pairing spec 1 with unit 2 resolve to exactly that reference. -/
theorem common_reference_spec_witness :
    common_reference sampleAlg ⟨1, 2⟩ ⟨1, 2⟩ [] = some ⟨1, 2⟩ :=
  (common_reference_spec sampleAlg ⟨1, 2⟩ ⟨1, 2⟩ []).2.1 1 2 (by decide) (by decide)

/-- C2: equality of two References holds exactly when both the
quantity-spec sides and the unit sides are equal; equality of a
Reference and a bare associated unit holds exactly when the spec side
equals the unit's associated quantity spec and the unit sides are
equal. -/
theorem ref_eq_pointwise {S Uu : Type} (A : SubAlg S Uu) :
    (∀ r1 r2 : Ref S Uu,
      ref_eq A r1 r2 = true ↔ A.qeq r1.Q r2.Q = true ∧ A.ueq r1.U r2.U = true) ∧
    (∀ (r1 : Ref S Uu) (u2 : Uu),
      ref_eq_unit A r1 u2 = true ↔
        A.qeq r1.Q (A.assocSpec u2) = true ∧ A.ueq r1.U u2 = true) := by
  refine ⟨fun r1 r2 => ?_, fun r1 u2 => ?_⟩ <;> simp [ref_eq, ref_eq_unit]

/-- C3: multiplication and division of References combine the
quantity-spec sides and the unit sides independently and pointwise, and
the mixed forms with a bare associated unit first resolve the unit's
associated quantity spec and then apply the same pointwise
combination. -/
theorem ref_mul_div_pointwise {S Uu : Type} (A : SubAlg S Uu) :
    (∀ r1 r2 : Ref S Uu, ref_mul A r1 r2 = ⟨A.qmul r1.Q r2.Q, A.umul r1.U r2.U⟩) ∧
    (∀ r1 r2 : Ref S Uu, ref_div A r1 r2 = ⟨A.qdiv r1.Q r2.Q, A.udiv r1.U r2.U⟩) ∧
    (∀ (r1 : Ref S Uu) (u2 : Uu), ref_mul_unit A r1 u2 = ref_mul A r1 ⟨A.assocSpec u2, u2⟩) ∧
    (∀ (u1 : Uu) (r2 : Ref S Uu), unit_mul_ref A u1 r2 = ref_mul A ⟨A.assocSpec u1, u1⟩ r2) ∧
    (∀ (r1 : Ref S Uu) (u2 : Uu), ref_div_unit A r1 u2 = ref_div A r1 ⟨A.assocSpec u2, u2⟩) ∧
    (∀ (u1 : Uu) (r2 : Ref S Uu), unit_div_ref A u1 r2 = ref_div A ⟨A.assocSpec u1, u1⟩ r2) :=
  ⟨fun _ _ => rfl, fun _ _ => rfl, fun _ _ => rfl, fun _ _ => rfl, fun _ _ => rfl,
    fun _ _ => rfl⟩

/-- C4: interconvertibility of two References holds exactly when both
the quantity-spec sides and the unit sides are interconvertible; the
mixed form with a bare associated unit uses the unit's associated
quantity spec as its spec side, and the (unit, reference) form gives the
same answer as the (reference, unit) form. -/
theorem ref_interconvertible_pointwise {S Uu : Type} (A : SubAlg S Uu) :
    (∀ r1 r2 : Ref S Uu,
      ref_interconvertible A r1 r2 = true ↔
        A.qint r1.Q r2.Q = true ∧ A.uint r1.U r2.U = true) ∧
    (∀ (r1 : Ref S Uu) (u2 : Uu),
      ref_interconvertible_unit A r1 u2 =
        ref_interconvertible A r1 ⟨A.assocSpec u2, u2⟩) ∧
    (∀ (u1 : Uu) (r2 : Ref S Uu),
      unit_interconvertible_ref A u1 r2 = ref_interconvertible_unit A r2 u1) := by
  refine ⟨fun r1 r2 => ?_, fun _ _ => rfl, fun _ _ => rfl⟩
  simp [ref_interconvertible]

/-- C5: `get_associated_quantity` resolves a unit's quantity spec by
case analysis on the unit's definition: a unit declaring a
`reference_unit` delegates to it, a ratio of a numerator and a
denominator unit expression returns the quotient of the recursively
resolved associated quantities of the two sides, and a unit declaring a
`base_quantity` returns it; `get_quantity_spec` on a unit is exactly
this resolver. -/
theorem get_associated_quantity_cases :
    (∀ (i : Nat) (ru : UnitExpr),
      get_associated_quantity (.scaled i ru) = get_associated_quantity ru) ∧
    (∀ num den : List UnitExpr,
      get_associated_quantity (.ratio num den) =
        QSpec.div (get_associated_quantity_of_list QSpec.dimensionless num)
          (get_associated_quantity_of_list QSpec.dimensionless den)) ∧
    (∀ (i : Nat) (bq : QSpec), get_associated_quantity (.base i bq) = bq) ∧
    (∀ u : UnitExpr, get_quantity_spec_of_unit u = get_associated_quantity u) :=
  ⟨fun _ _ => rfl, fun _ _ => rfl, fun _ _ => rfl, fun _ => rfl⟩

/-- C6: a factor is accepted by `derived_quantity_spec` construction
exactly when it has the claim's shape (a Named spec, the Dimensionless
identity, a Power whose base is one of those, or a Per whose elements
are all of those); in particular a factor list containing a raw
`derived_quantity_spec` anywhere is rejected. -/
theorem all_valid_elems_eq (ts : List CType) :
    ts.all (fun t => CType.NamedQuantitySpec t || CType.is_dimensionless t ||
      CType.is_power_of_quantity_spec t) = ts.all valid_elem_shape := by
  induction ts with
  | nil => rfl
  | cons t ts ih =>
    rw [List.all_cons, List.all_cons, ih]
    cases t <;> rfl

theorem derived_spec_factor_validation :
    (∀ fs : List CType,
      (CType.mk_derived_quantity_spec fs).isSome = fs.all CType.DerivedQuantitySpecExpr) ∧
    (∀ T : CType, CType.DerivedQuantitySpecExpr T = valid_factor_shape T) ∧
    (∀ (gs pre post : List CType),
      CType.mk_derived_quantity_spec (pre ++ CType.derived_spec gs :: post) = none) := by
  refine ⟨fun fs => ?_, fun T => ?_, fun gs pre post => ?_⟩
  · unfold CType.mk_derived_quantity_spec
    rcases h : fs.all CType.DerivedQuantitySpecExpr <;> simp [h]
  · cases T with
    | per_t ts => exact all_valid_elems_eq ts
    | power_t f vs =>
      show ((CType.NamedQuantitySpec f || CType.is_dimensionless f) || false) =
        valid_factor_shape (CType.power_t f vs)
      rw [Bool.or_false]
      rfl
    | _ => rfl
  · have h : (pre ++ CType.derived_spec gs :: post).all CType.DerivedQuantitySpecExpr = false := by
      rw [List.all_append, List.all_cons]
      have h0 : CType.DerivedQuantitySpecExpr (CType.derived_spec gs) = false := rfl
      rw [h0]
      simp
    unfold CType.mk_derived_quantity_spec
    rw [h]
    rfl

/-- C7: binding a value that is already a Quantity to a Reference by
multiplication hits the deleted overload (the source directs the caller
to write `q * (1 * r)` instead), while binding a plain representation
value succeeds and yields the Quantity holding that value bound to
exactly that Reference. -/
theorem quantity_times_reference_deleted {S Uu V : Type} :
    (∀ (q : Qty S Uu V) (r : Ref S Uu), rep_times_ref (.qty q) r = none) ∧
    (∀ (v : V) (r : Ref S Uu), rep_times_ref (.rep v) r = some ⟨r, v⟩) :=
  ⟨fun _ _ => rfl, fun _ _ => rfl⟩

/-- C8: every Reference is interconvertible with itself, provided the
underlying interconvertibility relations on quantity specs and on units
are reflexive. -/
theorem ref_interconvertible_refl {S Uu : Type} (A : SubAlg S Uu)
    (hq : ∀ s, A.qint s s = true) (hu : ∀ u, A.uint u u = true) (r : Ref S Uu) :
    ref_interconvertible A r r = true := by
  simp [ref_interconvertible, hq, hu]

/-- Witness for C8: at the sample algebra, whose interconvertibility
relations are reflexive, the reference pairing spec 1 with unit 2 is
interconvertible with itself. -/
theorem ref_interconvertible_refl_witness :
    ref_interconvertible sampleAlg ⟨1, 2⟩ ⟨1, 2⟩ = true :=
  ref_interconvertible_refl sampleAlg (fun s => by simp [sampleAlg])
    (fun u => by simp [sampleAlg]) ⟨1, 2⟩

/-- C9: `get_associated_quantity` on a `power<U, Vs...>` factor returns
the associated quantity of the base unit `U` itself, discarding the
exponents entirely; at a concrete base unit measuring an atomic
quantity, squaring the unit leaves the associated quantity unchanged,
which differs from the associated quantity raised to that power. -/
theorem get_associated_quantity_power_discards_exponent :
    (∀ (u : UnitExpr) (vs : List Int),
      get_associated_quantity (.pow u vs) = get_associated_quantity u) ∧
    (get_associated_quantity (.pow (.base 0 (QSpec.atom 0)) [2]) = QSpec.atom 0 ∧
      get_associated_quantity (.pow (.base 0 (QSpec.atom 0)) [2]) ≠
        QSpec.qpow (get_associated_quantity (.base 0 (QSpec.atom 0))) 2) :=
  ⟨fun _ _ => rfl, rfl, by decide⟩

/-- C10: a type satisfies `NamedQuantitySpec` only if it derives from a
`quantity_spec` specialization while not itself being one; consequently
a direct instantiation of `quantity_spec` is neither a
`NamedQuantitySpec` nor a `QuantitySpec` at all. -/
theorem named_quantity_spec_strict :
    (∀ T : CType, CType.NamedQuantitySpec T = true →
      CType.to_base_specialization_of_quantity_spec T = true ∧
        CType.is_specialization_of_quantity_spec T = false) ∧
    (∀ args : List Nat,
      CType.NamedQuantitySpec (.qspec_inst args) = false ∧
        CType.QuantitySpec (.qspec_inst args) = false) := by
  constructor
  · intro T h
    unfold CType.NamedQuantitySpec at h
    rcases Bool.and_eq_true_iff.mp h with ⟨h1, h2⟩
    exact ⟨h1, by simpa using h2⟩
  · intro args
    exact ⟨rfl, rfl⟩

/-- Witness for C10: the user-named spec with id 0 satisfies
`NamedQuantitySpec`, and it indeed derives from a `quantity_spec`
specialization without being one. -/
theorem named_quantity_spec_strict_witness :
    CType.to_base_specialization_of_quantity_spec (.named_spec 0) = true ∧
      CType.is_specialization_of_quantity_spec (.named_spec 0) = false :=
  named_quantity_spec_strict.1 (.named_spec 0) (by decide)

end MPUnits
